import Mathlib

/-!
Verification of the hostel-chatbot orchestration layer (`src/main.py`).

The Python string primitives used by the code (`str.strip`, `str.lower`,
`str.split`, the `in` substring test and `"\n\n".join`) are embedded as
executable Lean functions on `String` viewed as a list of characters.
The two external collaborators (`api.answer_semantic_question` wrapped at a
fixed threshold, and `app.hostel_chatbot`) are opaque modules of the
repository that are not part of `src/`; they are modelled as parameters of a
`Collaborators` structure, exactly as the spec treats them (opaque
query-to-answer functions).
-/

/-- The ASCII whitespace characters recognised by Python's `str.strip` and
`str.split` (tab, newline, vertical tab, form feed, carriage return, space). -/
def isSpaceChar (c : Char) : Bool :=
  c.toNat = 32 || c.toNat = 9 || c.toNat = 10 || c.toNat = 11 || c.toNat = 12 || c.toNat = 13

/-- The 26 basic latin upper-to-lower pairs of Python's `str.lower`
(ASCII fragment), as an explicit table so that properties of the
case mapping are finite checks. -/
def lowerTable : List (Char × Char) :=
  [('A','a'), ('B','b'), ('C','c'), ('D','d'), ('E','e'), ('F','f'), ('G','g'),
   ('H','h'), ('I','i'), ('J','j'), ('K','k'), ('L','l'), ('M','m'), ('N','n'),
   ('O','o'), ('P','p'), ('Q','q'), ('R','r'), ('S','s'), ('T','t'), ('U','u'),
   ('V','v'), ('W','w'), ('X','x'), ('Y','y'), ('Z','z')]

/-- Embedding of Python's per-character lowercasing (ASCII fragment). -/
def pyCharLower (c : Char) : Char :=
  ((lowerTable.find? (fun p => p.1 = c)).map Prod.snd).getD c

/-- Embedding of Python's `str.lower` (ASCII fragment). -/
def pyLower (s : String) : String := ⟨s.data.map pyCharLower⟩

/-- `str.strip` on the underlying character list. -/
def pyStripL (l : List Char) : List Char :=
  ((l.dropWhile isSpaceChar).reverse.dropWhile isSpaceChar).reverse

/-- Embedding of Python's `str.strip`. -/
def pyStrip (s : String) : String := ⟨pyStripL s.data⟩

/-- `str.split()` (no separator argument: split on whitespace runs, dropping
empty tokens) on the underlying character list, carrying the reversed
characters of the word currently being read. -/
def pySplitAux : List Char → List Char → List String
  | [], acc => if acc = [] then [] else [String.mk acc.reverse]
  | c :: cs, acc =>
    if isSpaceChar c then
      if acc = [] then pySplitAux cs [] else String.mk acc.reverse :: pySplitAux cs []
    else pySplitAux cs (c :: acc)

/-- Embedding of Python's `str.split()`. -/
def pySplit (s : String) : List String := pySplitAux s.data []

/-- Embedding of Python's substring test `needle in hay`. -/
def containsSub (hay needle : String) : Bool := decide (needle.data <:+: hay.data)

/-- Embedding of Python's `sep.join(parts)`. -/
def pyJoin (sep : String) : List String → String
  | [] => ""
  | [x] => x
  | x :: y :: xs => x ++ sep ++ pyJoin sep (y :: xs)

/-! Embeddings of the functions of `src/main.py`. -/

/-- The fixed greeting list of `is_greeting` (main.py lines 18-21). -/
def greetings : List String :=
  ["hi", "hello", "hey", "hai", "good morning", "good afternoon", "good evening"]

/-- `is_greeting` (main.py lines 13-22): `str(text).strip().lower()` is an
exact member of the fixed greeting list. -/
def is_greeting (text : String) : Bool :=
  greetings.contains (pyLower (pyStrip text))

/-- `is_meaningful_answer` (main.py lines 24-51).  The `answer` argument may
be Python `None` (modelled as `none`); `user_query` defaults to `None` and is
tested for Python truthiness (`if user_query:`), so `none` and `some ""` both
skip the shared-words check. -/
def is_meaningful_answer (answer : Option String) (user_query : Option String) : Bool :=
  match answer with
  | none => false
  | some a =>
      let answer_str := pyStrip a
      if answer_str = "" then false
      else if answer_str.length ≤ 3 then false
      else
        match user_query with
        | none => true
        | some q =>
            if q = "" then true
            else
              let query_words := (pySplit (pyLower q)).filter (fun w => 2 < w.length)
              if query_words = [] then false
              else if query_words.any (fun w => containsSub (pyLower answer_str) w) then true
              else false

/-- The failure substrings blocked inside `api_answer` (main.py lines 86-92). -/
def fail_phrases : List String :=
  ["sorry", "couldn\x27t understand", "not understand", "no data", "not available"]

/-- `api_answer` (main.py lines 68-111), with the call
`api.answer_semantic_question(question, df_api, model_api, threshold=0.60)`
abstracted as the opaque `engine` (module `api` is not under `src/`; a `None`
result is `none`). -/
def api_answer (engine : String → Option String) (question : String) : Option String :=
  if is_greeting question then none
  else
    match engine question with
    | none => none
    | some result =>
        let answer_str := pyLower (pyStrip result)
        if fail_phrases.any (fun x => containsSub answer_str x) then none
        else
          let query_words := (pySplit (pyLower question)).filter (fun w => 2 < w.length)
          if query_words = [] then none
          else
            let overlap := query_words.countP (fun w => containsSub answer_str w)
            if overlap = 0 then none
            else some result

/-- The invalid phrases of `is_valid_app_answer` (main.py lines 123-128). -/
def invalid_phrases : List String :=
  ["sorry", "couldn\x27t understand", "could not understand", "not understand"]

/-- `is_valid_app_answer` (main.py lines 117-129): rejects `None`, rejects a
stripped-empty answer, and rejects an answer containing an invalid phrase.
Note it has no length bound and no query-overlap check. -/
def is_valid_app_answer (answer : Option String) : Bool :=
  match answer with
  | none => false
  | some a =>
      let answer_str := pyLower (pyStrip a)
      if answer_str = "" then false
      else invalid_phrases.all (fun p => ! containsSub answer_str p)

/-- Modelled from the spec: `api.preprocess_text` (module `api` is not under
`src/`).  Spec section 4.1, Text Normalizer: "lowercase, whitespace-tokenized
canonical string"; empty input yields empty output. -/
def preprocess_text (s : String) : String := pyJoin " " (pySplit (pyLower s))

/-- The two opaque collaborators of `main.py`: `engine` is
`api.answer_semantic_question` at threshold 0.60 over the loaded fact table,
and `hostel_chatbot` is `app.hostel_chatbot`, returning an
(answer, link, image) triple any component of which may be `None`. -/
structure Collaborators where
  engine : String → Option String
  hostel_chatbot : String → Option String × Option String × Option String

/-- The fixed greeting response (main.py line 138). -/
def greeting_response : String := "👋 Hello! How can I help you with hostel information?"

/-- The fixed fallback string (main.py line 182). -/
def fallback_response : String :=
  "❌ Sorry, I couldn\x27t find an answer. Please ask more clearly or provide more details."

/-- `user_query_words` (main.py line 143): significant tokens of the
normalized query, computed without a further lowering. -/
def user_query_words (n : String) : List String :=
  (pySplit n).filter (fun w => 2 < w.length)

/-- main.py lines 146-148: the api answer after its meaningfulness filter
(`api_ans = None` when `is_meaningful_answer` rejects it). -/
def api_ans_final (c : Collaborators) (n : String) : Option String :=
  let api_ans := api_answer c.engine n
  if is_meaningful_answer api_ans (some n) then api_ans else none

/-- main.py lines 151-153: `str(app_ans) if app_ans else ""` (Python
truthiness sends both `None` and `""` to `""`). -/
def app_ans_raw (c : Collaborators) (n : String) : String :=
  ((c.hostel_chatbot n).1).getD ""

/-- main.py line 154, as `app_ans_raw` for the link component. -/
def app_link_raw (c : Collaborators) (n : String) : String :=
  ((c.hostel_chatbot n).2.1).getD ""

/-- main.py line 155, as `app_ans_raw` for the image component. -/
def app_img_raw (c : Collaborators) (n : String) : String :=
  ((c.hostel_chatbot n).2.2).getD ""

/-- main.py lines 158-162: the app answer is kept only when it passes
`is_valid_app_answer`, passes `is_meaningful_answer` against the normalized
query, and the query has at least one significant token. -/
def app_accept (c : Collaborators) (n : String) : Bool :=
  is_valid_app_answer (some (app_ans_raw c n)) &&
  is_meaningful_answer (some (app_ans_raw c n)) (some n) &&
  ! (user_query_words n).isEmpty

/-- main.py lines 158-165: the app answer after filtering (reset to `""`
when rejected). -/
def app_ans_final (c : Collaborators) (n : String) : String :=
  if app_accept c n then app_ans_raw c n else ""

/-- main.py lines 158-165 for the link component. -/
def app_link_final (c : Collaborators) (n : String) : String :=
  if app_accept c n then app_link_raw c n else ""

/-- main.py lines 158-165 for the image component. -/
def app_img_final (c : Collaborators) (n : String) : String :=
  if app_accept c n then app_img_raw c n else ""

/-- main.py lines 167-178: `response_parts` as built by the composition step
(`if api_ans:` and `if app_ans:` are Python truthiness tests, so an empty
string contributes nothing). -/
def response_parts (c : Collaborators) (n : String) : List String :=
  (match api_ans_final c n with
   | none => []
   | some s => if s = "" then [] else [s]) ++
  (if app_ans_final c n = "" then []
   else
     [app_ans_final c n] ++
     (if app_link_final c n = "" then [] else ["🔗 " ++ app_link_final c n]) ++
     (if app_img_final c n = "" then [] else ["🖼️ " ++ app_img_final c n]))

/-- `unified_chatbot` (main.py lines 136-184). -/
def unified_chatbot (c : Collaborators) (user_query : String) : String :=
  if is_greeting user_query then greeting_response
  else
    let n := preprocess_text user_query
    let parts := response_parts c n
    if parts = [] then fallback_response
    else pyJoin "\n\n" parts

/-- One turn of the Gradio conversation history. -/
structure Turn where
  role : String
  content : String
deriving DecidableEq

/-- `chat` (main.py lines 190-197).  The UI always passes the history as a
list, on which `history = history or []` is the identity (Python `[] or []`
is `[]`), so the history argument is modelled as a list directly. -/
def chat (c : Collaborators) (user_message : String) (history : List Turn) :
    List Turn × String :=
  if pyStrip user_message = "" then (history, "")
  else
    let bot_text := unified_chatbot c user_message
    (history ++ [⟨"user", user_message⟩, ⟨"assistant", bot_text⟩], "")

/-! Helper lemmas about the string primitives. -/

/-- Lowercasing never turns a character into or out of whitespace. -/
theorem isSpaceChar_pyCharLower (c : Char) : isSpaceChar (pyCharLower c) = isSpaceChar c := by
  unfold pyCharLower
  cases h : lowerTable.find? (fun p => p.1 = c) with
  | none => rfl
  | some p =>
      have hmem : p ∈ lowerTable := List.mem_of_find?_eq_some h
      have hpred : p.1 = c := by
        have := List.find?_some h
        simpa using this
      have hall : lowerTable.all (fun q => !isSpaceChar q.1 && !isSpaceChar q.2) = true := by
        decide
      have h1 := List.all_eq_true.mp hall p hmem
      simp only [Bool.and_eq_true, Bool.not_eq_true'] at h1
      show isSpaceChar p.2 = isSpaceChar c
      rw [h1.2, ← hpred, h1.1]

/-- Lowercasing a string preserves its length. -/
theorem length_pyLower (s : String) : (pyLower s).length = s.length := by
  show (s.data.map pyCharLower).length = s.data.length
  exact List.length_map s.data pyCharLower

/-- A string is the empty string exactly when its character list is empty. -/
theorem eq_empty_iff_data (s : String) : s = "" ↔ s.data = [] := by
  constructor
  · intro h; rw [h]
  · intro h; apply String.ext; rw [h]

/-- Building a word from the reversed accumulator commutes with lowercasing. -/
theorem mk_reverse_map (acc : List Char) :
    String.mk ((acc.map pyCharLower).reverse) = pyLower (String.mk acc.reverse) := by
  apply String.ext
  show (acc.map pyCharLower).reverse = acc.reverse.map pyCharLower
  exact (List.map_reverse pyCharLower acc).symm

/-- Splitting commutes with lowercasing (accumulator form). -/
theorem pySplitAux_map (l : List Char) :
    ∀ acc : List Char,
      pySplitAux (l.map pyCharLower) (acc.map pyCharLower) =
        (pySplitAux l acc).map pyLower := by
  induction l with
  | nil =>
      intro acc
      show pySplitAux [] (acc.map pyCharLower) = (pySplitAux [] acc).map pyLower
      by_cases h : acc = []
      · subst h; rfl
      · have h2 : acc.map pyCharLower ≠ [] := by
          simpa using h
        simp only [pySplitAux, if_neg h, if_neg h2, List.map_cons, List.map_nil]
        rw [mk_reverse_map]
  | cons c cs ih =>
      intro acc
      show pySplitAux (pyCharLower c :: cs.map pyCharLower) (acc.map pyCharLower) =
        (pySplitAux (c :: cs) acc).map pyLower
      have ihnil : pySplitAux (cs.map pyCharLower) [] = (pySplitAux cs []).map pyLower := by
        have := ih []
        simpa using this
      by_cases hsp : isSpaceChar c = true
      · have hsp2 : isSpaceChar (pyCharLower c) = true := by
          rw [isSpaceChar_pyCharLower]; exact hsp
        by_cases hacc : acc = []
        · subst hacc
          simp only [pySplitAux, if_pos hsp, if_pos hsp2, List.map_nil, if_pos rfl]
          exact ihnil
        · have hacc2 : acc.map pyCharLower ≠ [] := by simpa using hacc
          simp only [pySplitAux, if_pos hsp, if_pos hsp2, if_neg hacc, if_neg hacc2,
            List.map_cons]
          rw [mk_reverse_map, ihnil]
      · have hsp2 : ¬ isSpaceChar (pyCharLower c) = true := by
          rw [isSpaceChar_pyCharLower]; exact hsp
        simp only [pySplitAux, if_neg hsp, if_neg hsp2]
        have := ih (c :: acc)
        simpa using this

/-- Splitting commutes with lowercasing. -/
theorem pySplit_pyLower (s : String) : pySplit (pyLower s) = (pySplit s).map pyLower := by
  show pySplitAux (s.data.map pyCharLower) [] = (pySplitAux s.data []).map pyLower
  have := pySplitAux_map s.data []
  simpa using this

/-- The significant tokens (length greater than 2) of the lowercased string
are the lowercased significant tokens of the string. -/
theorem sig_words_pyLower (n : String) :
    (pySplit (pyLower n)).filter (fun w => 2 < w.length) =
      ((pySplit n).filter (fun w => 2 < w.length)).map pyLower := by
  rw [pySplit_pyLower, List.filter_map]
  congr 1
  apply List.filter_congr
  intro w _
  simp [Function.comp, length_pyLower]

/-- `containsSub` decides the infix relation on the character lists. -/
theorem containsSub_iff (hay needle : String) :
    containsSub hay needle = true ↔ needle.data <:+: hay.data := by
  unfold containsSub
  exact decide_eq_true_iff

/-- An infix none of whose characters satisfies `p` survives `dropWhile p`. -/
theorem infix_dropWhile_of_no_sat (p : Char → Bool) (m : List Char)
    (hm : ∀ c ∈ m, p c = false) :
    ∀ l : List Char, m <:+: l → m <:+: l.dropWhile p := by
  intro l
  induction l with
  | nil => intro h; simpa using h
  | cons c cs ih =>
      intro h
      by_cases hc : p c = true
      · rw [List.dropWhile_cons_of_pos hc]
        apply ih
        rcases List.infix_cons_iff.mp h with hpre | hinf
        · cases m with
          | nil => exact List.nil_infix
          | cons a as =>
              have ha : a = c := (List.cons_prefix_cons.mp hpre).1
              have : p a = false := hm a (List.mem_cons_self a as)
              rw [ha] at this
              rw [this] at hc
              exact absurd hc (by simp)
        · exact hinf
      · rw [List.dropWhile_cons_of_neg hc]
        exact h

/-- An infix none of whose characters is whitespace survives `pyStripL`. -/
theorem infix_pyStripL (m l : List Char) (hm : ∀ c ∈ m, isSpaceChar c = false)
    (h : m <:+: l) : m <:+: pyStripL l := by
  unfold pyStripL
  have h1 : m <:+: l.dropWhile isSpaceChar := infix_dropWhile_of_no_sat _ m hm l h
  have h2 : m.reverse <:+: (l.dropWhile isSpaceChar).reverse :=
    List.reverse_infix.mpr h1
  have hm2 : ∀ c ∈ m.reverse, isSpaceChar c = false := by
    intro c hc
    exact hm c (List.mem_reverse.mp hc)
  have h3 : m.reverse <:+: ((l.dropWhile isSpaceChar).reverse).dropWhile isSpaceChar :=
    infix_dropWhile_of_no_sat _ m.reverse hm2 _ h2
  have h4 := List.reverse_infix.mpr h3
  simpa using h4

/-- A whitespace-free substring of an answer is still a substring of its
stripped, lowercased form, provided the substring is fixed by lowercasing. -/
theorem containsSub_pyLower_pyStrip (s w : String)
    (hw : ∀ c ∈ w.data, isSpaceChar c = false)
    (hfix : w.data.map pyCharLower = w.data)
    (h : containsSub s w = true) :
    containsSub (pyLower (pyStrip s)) w = true := by
  rw [containsSub_iff] at h ⊢
  have h1 : w.data <:+: pyStripL s.data := infix_pyStripL w.data s.data hw h
  have h2 : w.data.map pyCharLower <:+: (pyStripL s.data).map pyCharLower :=
    List.IsInfix.map pyCharLower h1
  rw [hfix] at h2
  exact h2

/-- A collaborator pair that never answers, for concrete instantiations. -/
def noColl : Collaborators := ⟨fun _ => none, fun _ => (none, none, none)⟩

/-- A collaborator pair that always answers about hostel fees, for concrete
instantiations. -/
def feesColl : Collaborators :=
  ⟨fun _ => some "hostel fees are 5000",
   fun _ => (some "fees info here", some "erp-portal-link", some "room-photo")⟩

/-- The meaningfulness filter rejects any answer whose stripped form has at
most 3 characters, whatever the query argument. -/
theorem meaningful_rejects_short (a : String) (q : Option String)
    (h : (pyStrip a).length ≤ 3) : is_meaningful_answer (some a) q = false := by
  simp only [is_meaningful_answer]
  by_cases he : pyStrip a = ""
  · rw [if_pos he]
  · rw [if_neg he, if_pos h]

/-- C1: for every input whose trimmed, lowercased form is one of the seven
fixed greetings, `unified_chatbot` returns exactly the fixed greeting
response, whatever the two answerers would reply (so neither answerer
influences, i.e. effectively reaches, the output). -/
theorem C1_greeting_fixed_response (c : Collaborators) (text : String)
    (h : pyLower (pyStrip text) ∈ greetings) :
    unified_chatbot c text = "👋 Hello! How can I help you with hostel information?" := by
  have hg : is_greeting text = true := by
    show greetings.elem (pyLower (pyStrip text)) = true
    exact List.elem_iff.mpr h
  unfold unified_chatbot
  rw [if_pos hg]
  rfl

/-- C1 witness: the concrete greeting "  HeLLo " with both answerers live. -/
theorem C1_witness :
    pyLower (pyStrip "  HeLLo ") ∈ greetings ∧
    unified_chatbot feesColl "  HeLLo " = "👋 Hello! How can I help you with hostel information?" :=
  ⟨by decide, C1_greeting_fixed_response feesColl "  HeLLo " (by decide)⟩

/-- C6: an answer whose stripped form has at most 3 characters is rejected by
`is_meaningful_answer` for every query argument, and consequently it is never
the api answer part nor (unless empty) the app answer part of
`unified_chatbot`'s composition. -/
theorem C6_short_answers_rejected (a : String) (q : Option String)
    (h : (pyStrip a).length ≤ 3) :
    is_meaningful_answer (some a) q = false ∧
    ∀ (c : Collaborators) (n : String),
      api_ans_final c n ≠ some a ∧ (app_ans_final c n = a → a = "") := by
  refine ⟨meaningful_rejects_short a q h, ?_⟩
  intro c n
  constructor
  · intro hcontra
    unfold api_ans_final at hcontra
    by_cases hb : is_meaningful_answer (api_answer c.engine n) (some n) = true
    · rw [if_pos hb] at hcontra
      rw [hcontra] at hb
      rw [meaningful_rejects_short a (some n) h] at hb
      exact absurd hb (by simp)
    · rw [if_neg hb] at hcontra
      exact absurd hcontra (by simp)
  · intro hfin
    unfold app_ans_final at hfin
    by_cases hb : app_accept c n = true
    · rw [if_pos hb] at hfin
      unfold app_accept at hb
      simp only [Bool.and_eq_true] at hb
      have hmean := hb.1.2
      rw [hfin] at hmean
      rw [meaningful_rejects_short a (some n) h] at hmean
      exact absurd hmean (by simp)
    · rw [if_neg hb] at hfin
      exact hfin.symm

/-- C6 witness: the concrete short answer " ab " is rejected. -/
theorem C6_witness : is_meaningful_answer (some " ab ") (some "hostel") = false :=
  (C6_short_answers_rejected " ab " (some "hostel") (by decide)).1

/-- C2 counterexample: the three-character answer "abc" (stripped length 3,
which the claim says every filter rejects) is accepted by
`is_valid_app_answer`, so the two filters do not share the claimed shape. -/
theorem C2_counterexample :
    (pyStrip "abc").length ≤ 3 ∧ is_valid_app_answer (some "abc") = true := by
  decide

/-- C2 amended: both filters reject `None` and stripped-empty answers, and
`is_meaningful_answer` additionally rejects stripped length at most 3; but
`is_valid_app_answer` has no length bound (witnessed by "abc"), and the
symmetric quality bar arises only because `unified_chatbot` also passes the
app answer through `is_meaningful_answer` (the last conjunct). -/
theorem C2_filter_shapes :
    (∀ q, is_meaningful_answer none q = false) ∧
    is_valid_app_answer none = false ∧
    (∀ a q, pyStrip a = "" → is_meaningful_answer (some a) q = false) ∧
    (∀ a, pyStrip a = "" → is_valid_app_answer (some a) = false) ∧
    (∀ a q, (pyStrip a).length ≤ 3 → is_meaningful_answer (some a) q = false) ∧
    (∃ a, (pyStrip a).length ≤ 3 ∧ is_valid_app_answer (some a) = true) ∧
    (∀ (c : Collaborators) (n : String),
      app_accept c n = true → is_meaningful_answer (some (app_ans_raw c n)) (some n) = true) := by
  refine ⟨fun q => rfl, rfl, ?_, ?_, ?_, ⟨"abc", by decide⟩, ?_⟩
  · intro a q ha
    simp only [is_meaningful_answer]
    rw [if_pos ha]
  · intro a ha
    simp only [is_valid_app_answer]
    rw [ha]
    decide
  · intro a q h
    exact meaningful_rejects_short a q h
  · intro c n h
    unfold app_accept at h
    simp only [Bool.and_eq_true] at h
    exact h.1.2

/-- C2 witness: concrete instantiations of the amended filter facts. -/
theorem C2_witness :
    is_meaningful_answer (some "  xy  ") (some "hostel fees") = false :=
  C2_filter_shapes.2.2.2.2.1 "  xy  " (some "hostel fees") (by decide)

/-- C3 counterexample: an answer containing "sorry" is accepted by
`is_meaningful_answer` (which has no apology check), so not every filter
rejects it as the claim states. -/
theorem C3_counterexample :
    containsSub "sorry, the hostel fee is 5000" "sorry" = true ∧
    is_meaningful_answer (some "sorry, the hostel fee is 5000") (some "hostel fee") = true := by
  decide

/-- C3 amended: an answer containing "sorry" anywhere is always rejected by
`is_valid_app_answer` and by the failure-substring gate of `api_answer`
(whatever the engine replied and whatever the question), regardless of the
answer's other content; `is_meaningful_answer` performs no such check. -/
theorem C3_sorry_rejected (s : String) (h : containsSub s "sorry" = true) :
    is_valid_app_answer (some s) = false ∧
    ∀ (engine : String → Option String) (q : String),
      engine q = some s → api_answer engine q = none := by
  have hsub : containsSub (pyLower (pyStrip s)) "sorry" = true :=
    containsSub_pyLower_pyStrip s "sorry" (by decide) (by decide) h
  constructor
  · simp only [is_valid_app_answer]
    by_cases he : pyLower (pyStrip s) = ""
    · rw [if_pos he]
    · rw [if_neg he]
      apply List.all_eq_false.mpr
      refine ⟨"sorry", by simp [invalid_phrases], ?_⟩
      rw [hsub]
      decide
  · intro engine q heq
    unfold api_answer
    by_cases hg : is_greeting q = true
    · rw [if_pos hg]
    · rw [if_neg hg, heq]
      have hany : fail_phrases.any (fun x => containsSub (pyLower (pyStrip s)) x) = true := by
        apply List.any_eq_true.mpr
        exact ⟨"sorry", by simp [fail_phrases], hsub⟩
      show (if fail_phrases.any (fun x => containsSub (pyLower (pyStrip s)) x) = true
            then none
            else
              if ((pySplit (pyLower q)).filter (fun w => 2 < w.length)) = [] then none
              else
                if ((pySplit (pyLower q)).filter (fun w => 2 < w.length)).countP
                    (fun w => containsSub (pyLower (pyStrip s)) w) = 0 then none
                else some s) = none
      rw [if_pos hany]

/-- C3 witness: a concrete "sorry" answer rejected by both gates. -/
theorem C3_witness :
    is_valid_app_answer (some "well sorry sir") = false ∧
    api_answer (fun _ => some "well sorry sir") "fees info" = none := by
  have h := C3_sorry_rejected "well sorry sir" (by decide)
  exact ⟨h.1, h.2 (fun _ => some "well sorry sir") "fees info" rfl⟩

/-- C4: for a non-greeting query, when the api side yields no accepted answer
and the app side yields no accepted answer, `unified_chatbot` returns exactly
the fixed fallback string. -/
theorem C4_fallback (c : Collaborators) (q : String)
    (hg : is_greeting q = false)
    (h1 : api_ans_final c (preprocess_text q) = none)
    (h2 : app_ans_final c (preprocess_text q) = "") :
    unified_chatbot c q =
      "❌ Sorry, I couldn\x27t find an answer. Please ask more clearly or provide more details." := by
  unfold unified_chatbot
  rw [if_neg (by simp [hg])]
  have hparts : response_parts c (preprocess_text q) = [] := by
    unfold response_parts
    rw [h1, h2]
    simp
  show (if response_parts c (preprocess_text q) = [] then fallback_response
        else pyJoin "\n\n" (response_parts c (preprocess_text q))) =
    "❌ Sorry, I couldn\x27t find an answer. Please ask more clearly or provide more details."
  rw [if_pos hparts]
  rfl

/-- C4 witness: a concrete query both answerers fail on. -/
theorem C4_witness :
    unified_chatbot noColl "library timings" =
      "❌ Sorry, I couldn\x27t find an answer. Please ask more clearly or provide more details." :=
  C4_fallback noColl "library timings" (by decide) (by decide) (by decide)

/-- C5: for a non-greeting query whose normalized form has no token longer
than 2 characters, the api answer is discarded (both raw and filtered forms
are `none`), the app answer is reset to empty, and `unified_chatbot` returns
the fallback string, regardless of what the answerers replied. -/
theorem C5_no_significant_tokens (c : Collaborators) (q : String)
    (hg : is_greeting q = false)
    (h : user_query_words (preprocess_text q) = []) :
    api_answer c.engine (preprocess_text q) = none ∧
    api_ans_final c (preprocess_text q) = none ∧
    app_ans_final c (preprocess_text q) = "" ∧
    unified_chatbot c q = fallback_response := by
  set n := preprocess_text q with hn
  have hlow : (pySplit (pyLower n)).filter (fun w => 2 < w.length) = [] := by
    rw [sig_words_pyLower]
    unfold user_query_words at h
    rw [h]
    rfl
  have hapi : api_answer c.engine n = none := by
    unfold api_answer
    by_cases hgn : is_greeting n = true
    · rw [if_pos hgn]
    · rw [if_neg hgn]
      cases heng : c.engine n with
      | none => rfl
      | some r =>
          show (if fail_phrases.any (fun x => containsSub (pyLower (pyStrip r)) x) = true
                then none
                else
                  if ((pySplit (pyLower n)).filter (fun w => 2 < w.length)) = [] then none
                  else
                    if ((pySplit (pyLower n)).filter (fun w => 2 < w.length)).countP
                        (fun w => containsSub (pyLower (pyStrip r)) w) = 0 then none
                    else some r) = none
          by_cases hf : fail_phrases.any (fun x => containsSub (pyLower (pyStrip r)) x) = true
          · rw [if_pos hf]
          · rw [if_neg hf, if_pos hlow]
  have hfinal : api_ans_final c n = none := by
    unfold api_ans_final
    rw [hapi]
    exact ite_self none
  have happ : app_ans_final c n = "" := by
    have hempty : (user_query_words n).isEmpty = true := by
      rw [List.isEmpty_iff]; exact h
    have haccept : app_accept c n = false := by
      unfold app_accept
      rw [hempty]
      simp
    unfold app_ans_final
    rw [haccept]
    simp
  have hfall : unified_chatbot c q = fallback_response := by
    unfold unified_chatbot
    rw [if_neg (by simp [hg])]
    have hparts : response_parts c n = [] := by
      unfold response_parts
      rw [hfinal, happ]
      simp
    show (if response_parts c n = [] then fallback_response
          else pyJoin "\n\n" (response_parts c n)) = fallback_response
    rw [if_pos hparts]
  exact ⟨hapi, hfinal, happ, hfall⟩

/-- C5 witness: "is it ok" has only tokens of length at most 2, so even the
always-answering collaborators are forced to the fallback. -/
theorem C5_witness :
    api_answer feesColl.engine (preprocess_text "is it ok") = none ∧
    api_ans_final feesColl (preprocess_text "is it ok") = none ∧
    app_ans_final feesColl (preprocess_text "is it ok") = "" ∧
    unified_chatbot feesColl "is it ok" = fallback_response :=
  C5_no_significant_tokens feesColl "is it ok" (by decide) (by decide)

/-- C7: `chat` returns the history unchanged (with an empty input-box reset
value) on a blank message, and otherwise appends exactly a user turn holding
the message and an assistant turn holding the composed answer. -/
theorem C7_chat_contract (c : Collaborators) (m : String) (h : List Turn) :
    (pyStrip m = "" → chat c m h = (h, "")) ∧
    (pyStrip m ≠ "" → chat c m h =
      (h ++ [⟨"user", m⟩, ⟨"assistant", unified_chatbot c m⟩], "")) := by
  constructor
  · intro hb
    unfold chat
    rw [if_pos hb]
  · intro hb
    unfold chat
    rw [if_neg hb]

/-- C7 witness: a blank message leaves the history unchanged; "hi" appends a
user turn and the greeting assistant turn. -/
theorem C7_witness :
    chat noColl "   " [⟨"user", "x"⟩] = ([⟨"user", "x"⟩], "") ∧
    chat noColl "hi" [] =
      ([⟨"user", "hi"⟩,
        ⟨"assistant", "👋 Hello! How can I help you with hostel information?"⟩], "") := by
  constructor
  · exact (C7_chat_contract noColl "   " [⟨"user", "x"⟩]).1 (by decide)
  · have h2 := (C7_chat_contract noColl "hi" []).2 (by decide)
    rw [h2]
    decide

/-- C9: when the app answer is rejected (or absent), the link and image are
discarded with it, and the composed parts reduce to the api part alone: no
link or image paragraph ever appears without an accepted app answer. -/
theorem C9_no_orphan_link_img (c : Collaborators) (n : String)
    (h : app_accept c n = false ∨ app_ans_raw c n = "") :
    app_ans_final c n = "" ∧ app_link_final c n = "" ∧ app_img_final c n = "" ∧
    response_parts c n =
      (match api_ans_final c n with
       | none => []
       | some s => if s = "" then [] else [s]) := by
  have haccept : app_accept c n = false := by
    rcases h with h | h
    · exact h
    · by_cases hb : app_accept c n = true
      · exfalso
        unfold app_accept at hb
        simp only [Bool.and_eq_true] at hb
        have hm := hb.1.2
        rw [h, meaningful_rejects_short "" (some n) (by decide)] at hm
        exact absurd hm (by simp)
      · simp only [Bool.not_eq_true] at hb
        exact hb
  have h1 : app_ans_final c n = "" := by
    unfold app_ans_final
    rw [haccept]
    simp
  have h2 : app_link_final c n = "" := by
    unfold app_link_final
    rw [haccept]
    simp
  have h3 : app_img_final c n = "" := by
    unfold app_img_final
    rw [haccept]
    simp
  refine ⟨h1, h2, h3, ?_⟩
  unfold response_parts
  rw [h1]
  simp

/-- A collaborator pair whose app side apologises but still offers a link and
an image, for concrete instantiations. -/
def apologyColl : Collaborators :=
  ⟨fun _ => none, fun _ => (some "sorry", some "orphan-link", some "orphan-img")⟩

/-- C9 witness: the apologising app answer is rejected and its link and image
are dropped from the composition. -/
theorem C9_witness :
    app_ans_final apologyColl "hostel fees" = "" ∧
    app_link_final apologyColl "hostel fees" = "" ∧
    app_img_final apologyColl "hostel fees" = "" ∧
    response_parts apologyColl "hostel fees" =
      (match api_ans_final apologyColl "hostel fees" with
       | none => []
       | some s => if s = "" then [] else [s]) :=
  C9_no_orphan_link_img apologyColl "hostel fees" (Or.inl (by decide))

/-- A present-or-absent paragraph, as the spec describes the composition. -/
def optPart (o : Option String) : List String :=
  match o with
  | none => []
  | some s => [s]

/-- Follows the spec wording of the composition step (claim C8): the remote
answer if present, then the local answer if present, then the link paragraph
if present, then the image paragraph if present, each on its own paragraph
(joined with a blank line), in that fixed order. -/
def spec_composed (api_part app_part link_part img_part : Option String) : String :=
  pyJoin "\n\n" (optPart api_part ++ optPart app_part ++ optPart link_part ++ optPart img_part)

/-- The api paragraph of the composition, when present (main.py lines 170-171,
with the Python truthiness test `if api_ans:`). -/
def api_part_opt (c : Collaborators) (n : String) : Option String :=
  match api_ans_final c n with
  | none => none
  | some s => if s = "" then none else some s

/-- The app answer paragraph of the composition, when present (main.py
lines 173-174). -/
def app_part_opt (c : Collaborators) (n : String) : Option String :=
  if app_ans_final c n = "" then none else some (app_ans_final c n)

/-- The link paragraph of the composition, when present (main.py
lines 175-176). -/
def link_part_opt (c : Collaborators) (n : String) : Option String :=
  if app_ans_final c n = "" then none
  else if app_link_final c n = "" then none
  else some ("🔗 " ++ app_link_final c n)

/-- The image paragraph of the composition, when present (main.py
lines 177-178). -/
def img_part_opt (c : Collaborators) (n : String) : Option String :=
  if app_ans_final c n = "" then none
  else if app_img_final c n = "" then none
  else some ("🖼️ " ++ app_img_final c n)

/-- The parts list built by the code equals the four optional paragraphs of
the spec wording, in the spec's fixed order. -/
theorem response_parts_eq_spec (c : Collaborators) (n : String) :
    response_parts c n =
      optPart (api_part_opt c n) ++ optPart (app_part_opt c n) ++
      optPart (link_part_opt c n) ++ optPart (img_part_opt c n) := by
  unfold response_parts api_part_opt app_part_opt link_part_opt img_part_opt optPart
  cases hA : api_ans_final c n with
  | none =>
      by_cases h1 : app_ans_final c n = "" <;>
      by_cases h2 : app_link_final c n = "" <;>
      by_cases h3 : app_img_final c n = "" <;>
      simp [h1, h2, h3]
  | some s =>
      by_cases h0 : s = "" <;>
      by_cases h1 : app_ans_final c n = "" <;>
      by_cases h2 : app_link_final c n = "" <;>
      by_cases h3 : app_img_final c n = "" <;>
      simp [h0, h1, h2, h3]

/-- C8: for a non-greeting query with at least one accepted answer, the
output is the blank-line join of the present paragraphs in the fixed order:
api answer, app answer, link, image. -/
theorem C8_composition_order (c : Collaborators) (q : String)
    (hg : is_greeting q = false)
    (hacc : api_part_opt c (preprocess_text q) ≠ none ∨
            app_part_opt c (preprocess_text q) ≠ none) :
    unified_chatbot c q =
      spec_composed (api_part_opt c (preprocess_text q)) (app_part_opt c (preprocess_text q))
        (link_part_opt c (preprocess_text q)) (img_part_opt c (preprocess_text q)) := by
  set n := preprocess_text q with hn
  have hparts := response_parts_eq_spec c n
  have hne : response_parts c n ≠ [] := by
    rw [hparts]
    rcases hacc with h | h
    · cases hA : api_part_opt c n with
      | none => exact absurd hA h
      | some s => simp [optPart]
    · cases hA : app_part_opt c n with
      | none => exact absurd hA h
      | some s => simp [optPart]
  unfold unified_chatbot
  rw [if_neg (by simp [hg])]
  show (if response_parts c n = [] then fallback_response
        else pyJoin "\n\n" (response_parts c n)) = _
  rw [if_neg hne, hparts]
  rfl

/-- C8 witness: with both answerers accepted, the output is the four
paragraphs in order. -/
theorem C8_witness :
    unified_chatbot feesColl "Hostel fees" =
      spec_composed (api_part_opt feesColl (preprocess_text "Hostel fees"))
        (app_part_opt feesColl (preprocess_text "Hostel fees"))
        (link_part_opt feesColl (preprocess_text "Hostel fees"))
        (img_part_opt feesColl (preprocess_text "Hostel fees")) :=
  C8_composition_order feesColl "Hostel fees" (by decide) (Or.inl (by decide))

/-- A string with a non-empty prefix appended to anything is non-empty. -/
theorem append_ne_empty_left (p l : String) (hp : p.data ≠ []) : p ++ l ≠ "" := by
  intro h
  have hd := (eq_empty_iff_data (p ++ l)).mp h
  rw [String.data_append] at hd
  exact hp (List.append_eq_nil.mp hd).1

/-- Every paragraph the composition step collects is a non-empty string. -/
theorem response_parts_ne_empty (c : Collaborators) (n : String) :
    ∀ s ∈ response_parts c n, s ≠ "" := by
  intro s hs
  unfold response_parts at hs
  rcases List.mem_append.mp hs with h | h
  · cases hA : api_ans_final c n with
    | none => rw [hA] at h; simp at h
    | some t =>
        rw [hA] at h
        have h' : s ∈ (if t = "" then ([] : List String) else [t]) := h
        by_cases ht : t = ""
        · rw [if_pos ht] at h'; simp at h'
        · rw [if_neg ht] at h'
          simp only [List.mem_singleton] at h'
          rw [h']; exact ht
  · by_cases h1 : app_ans_final c n = ""
    · rw [if_pos h1] at h; simp at h
    · rw [if_neg h1] at h
      rcases List.mem_append.mp h with h' | h'
      · rcases List.mem_append.mp h' with h'' | h''
        · simp only [List.mem_singleton] at h''
          rw [h'']; exact h1
        · by_cases h2 : app_link_final c n = ""
          · rw [if_pos h2] at h''; simp at h''
          · rw [if_neg h2] at h''
            simp only [List.mem_singleton] at h''
            rw [h'']
            exact append_ne_empty_left "🔗 " (app_link_final c n) (by decide)
      · by_cases h3 : app_img_final c n = ""
        · rw [if_pos h3] at h'; simp at h'
        · rw [if_neg h3] at h'
          simp only [List.mem_singleton] at h'
          rw [h']
          exact append_ne_empty_left "🖼️ " (app_img_final c n) (by decide)

/-- Joining a non-empty list of non-empty strings yields a non-empty string. -/
theorem pyJoin_length_pos (sep : String) (l : List String) (hl : l ≠ [])
    (h : ∀ s ∈ l, s ≠ "") : 0 < (pyJoin sep l).length := by
  match l with
  | [] => exact absurd rfl hl
  | [x] =>
      have hx : x ≠ "" := h x (by simp)
      have hxd : x.data ≠ [] := fun hd => hx ((eq_empty_iff_data x).mpr hd)
      show 0 < x.length
      exact List.length_pos.mpr hxd
  | x :: y :: xs =>
      have hx : x ≠ "" := h x (by simp)
      have hxd : x.data ≠ [] := fun hd => hx ((eq_empty_iff_data x).mpr hd)
      have hxl : 0 < x.length := List.length_pos.mpr hxd
      show 0 < (x ++ sep ++ pyJoin sep (y :: xs)).length
      rw [String.length_append, String.length_append]
      omega

/-- C10: `unified_chatbot` always returns a non-empty string — the greeting,
the fallback, or a join of non-empty accepted paragraphs. -/
theorem C10_output_nonempty (c : Collaborators) (q : String) :
    0 < (unified_chatbot c q).length := by
  unfold unified_chatbot
  by_cases hg : is_greeting q = true
  · rw [if_pos hg]
    decide
  · rw [if_neg hg]
    by_cases hp : response_parts c (preprocess_text q) = []
    · show 0 < (if response_parts c (preprocess_text q) = [] then fallback_response
                else pyJoin "\n\n" (response_parts c (preprocess_text q))).length
      rw [if_pos hp]
      decide
    · show 0 < (if response_parts c (preprocess_text q) = [] then fallback_response
                else pyJoin "\n\n" (response_parts c (preprocess_text q))).length
      rw [if_neg hp]
      exact pyJoin_length_pos "\n\n" (response_parts c (preprocess_text q)) hp
        (response_parts_ne_empty c (preprocess_text q))
